import Mathlib

/-!
Shallow embedding of src/src/data/developer.py.

A Python value in this script is a string, a list of strings, or a dict
(string keys).  A dict is an ordered association list with Python insertion
semantics (a repeated key updates the value in place, a fresh key is
appended).  A Python computation is modelled as an Except (raised error)
paired with the list of lines written to standard output.
-/

namespace Developer

inductive Value where
  | s : String → Value
  | l : List String → Value
  | d : List (String × Value) → Value

/-- A dict of the script: ordered list of key-value pairs. -/
abbrev Dict : Type := List (String × Value)

/-- Python dict insertion: an existing key is updated in place, a new key is
appended at the end. -/
def dictInsert (dct : Dict) (k : String) (v : Value) : Dict :=
  if dct.any (fun p => p.1 == k) then
    dct.map (fun p => if p.1 == k then (k, v) else p)
  else
    dct ++ [(k, v)]

/-- A Python dict literal: sequential insertion of its entries, left to
right, into an empty dict. -/
def mkDict (entries : List (String × Value)) : Dict :=
  entries.foldl (fun dct p => dictInsert dct p.1 p.2) []

/-- Python d[k] lookup result (first, hence only, matching key). -/
def dictGet (dct : Dict) (k : String) : Option Value :=
  (dct.find? (fun p => p.1 == k)).map (fun p => p.2)

/-- A Python computation: either a result or a raised error, together with
the lines it wrote to standard output. -/
abbrev Py (α : Type) : Type := Except String α × List String

def pyPure {α : Type} (a : α) : Py α := (Except.ok a, [])

def pyBind {α β : Type} (m : Py α) (f : α → Py β) : Py β :=
  match m with
  | (Except.error e, out) => (Except.error e, out)
  | (Except.ok a, out) =>
      match f a with
      | (r, out2) => (r, out ++ out2)

/-- The print statement: writes one line to standard output. -/
def pyPrint (line : String) : Py Unit := (Except.ok (), [line])

/-- Python d[k]: returns the value, or raises KeyError when absent. -/
def pyGetItem (dct : Dict) (k : String) : Py Value :=
  match dictGet dct k with
  | some v => pyPure v
  | none => (Except.error ("KeyError: " ++ k), [])

/-- The single-quote character used by Python repr. -/
def sglq : String := String.singleton (Char.ofNat 39)

mutual
/-- Python repr of a value (only ever reached on non-string values here,
and only with apostrophe-free data). -/
def pyReprV : Value → String
  | Value.s str => sglq ++ str ++ sglq
  | Value.l xs =>
      "[" ++ String.intercalate ", " (xs.map (fun x => sglq ++ x ++ sglq)) ++ "]"
  | Value.d ps => "\x7b" ++ String.intercalate ", " (pyReprD ps) ++ "\x7d"

def pyReprD : List (String × Value) → List String
  | [] => []
  | (k, v) :: rest => (sglq ++ k ++ sglq ++ ": " ++ pyReprV v) :: pyReprD rest
end

/-- Python str() as used inside an f-string: a string formats as itself,
any other value formats as its repr. -/
def pyStr : Value → String
  | Value.s str => str
  | v => pyReprV v

/-- The dict literal returned by get_personal_info. -/
def personal_info_data : Dict := mkDict [
  ("name", Value.s "Javier Argüeso"),
  ("location", Value.s "Badajoz, España"),
  ("role", Value.s "DevOps Engineer"),
  ("motto", Value.s "Destroy Every Version On Production Servers"),
  ("education", Value.s "Ingeniería Informática - Universidad de Extremadura"),
  ("certification", Value.s "Google Cloud Associate Engineer")]

/-- The dict literal returned by get_skills. -/
def skills_data : Dict := mkDict [
  ("cloud", Value.l ["Google Cloud", "AWS", "Azure"]),
  ("automation", Value.l ["Kubernetes", "Docker", "Jenkins"]),
  ("programming", Value.l ["Python", "Bash"]),
  ("ci_cd", Value.l ["GitLab CI/CD", "Azure DevOps"])]

/-- The dict literal returned by get_interests. -/
def interests_data : Dict := mkDict [
  ("tech", Value.l ["Cloud Architecture", "Automation", "DevSecOps"]),
  ("personal", Value.l ["Metal Music", "Craft Beer", "Artisan Cheese"])]

/-- The dict literal returned by get_contact. -/
def contact_data : Dict := mkDict [
  ("github", Value.s "srcheesedev"),
  ("linkedin", Value.s "javier-argueso-soto"),
  ("instagram", Value.s "srcheese.dev")]

/-- def get_personal_info(): a pure return of a fresh dict literal. -/
def get_personal_info : Py Dict := pyPure personal_info_data

/-- def get_skills(). -/
def get_skills : Py Dict := pyPure skills_data

/-- def get_interests(). -/
def get_interests : Py Dict := pyPure interests_data

/-- def get_contact(). -/
def get_contact : Py Dict := pyPure contact_data

/-- def main(): builds the profile dict literal, unpacking the personal info
entries first and then inserting the three nested dicts. -/
def main : Py Dict :=
  pyBind get_personal_info fun p =>
  pyBind get_skills fun sk =>
  pyBind get_interests fun it =>
  pyBind get_contact fun ct =>
  pyPure (mkDict (p ++ [("skills", Value.d sk),
                        ("interests", Value.d it),
                        ("contact", Value.d ct)]))

/-- The guarded presentation block: dev = main(), then five print
statements, each formatting one or two fields of dev. -/
def script : Py Unit :=
  pyBind main fun dev =>
  pyBind (pyGetItem dev "name") fun v1 =>
  pyBind (pyGetItem dev "role") fun v2 =>
  pyBind (pyPrint ("👋 " ++ pyStr v1 ++ " - " ++ pyStr v2)) fun _ =>
  pyBind (pyGetItem dev "location") fun v3 =>
  pyBind (pyPrint ("📍 " ++ pyStr v3)) fun _ =>
  pyBind (pyGetItem dev "motto") fun v4 =>
  pyBind (pyPrint ("💭 " ++ pyStr v4)) fun _ =>
  pyBind (pyGetItem dev "education") fun v5 =>
  pyBind (pyPrint ("🎓 " ++ pyStr v5)) fun _ =>
  pyBind (pyGetItem dev "certification") fun v6 =>
  pyPrint ("☁️ " ++ pyStr v6)

/-- Loading the module: the presentation block runs only when the module
name is __main__; a plain import executes only the def statements, which
print nothing and raise nothing. -/
def run_module (name : String) : Py Unit :=
  if name == "__main__" then script else pyPure ()

/-- The result of a computation when it did not raise. -/
def resultOf {α : Type} (m : Py α) : Option α :=
  match m.1 with
  | Except.ok a => some a
  | Except.error _ => none

/-- The profile dict built by main. -/
def profileD : Dict := (resultOf main).getD []

/-- The ordered key list of the profile. -/
def mainKeys : List String := profileD.map Prod.fst

/-- The ordered key list of the personal info dict. -/
def personalKeys : List String := personal_info_data.map Prod.fst

/-- Two successive calls of the same provider, returning both results. -/
def twiceCall (m : Py Dict) : Py (Dict × Dict) :=
  pyBind m fun a => pyBind m fun b => pyPure (a, b)

end Developer

open Developer

/-- C1: the profile returned by main has as its key set exactly the six
personal-info keys followed by skills, interests, contact — nine keys in
total, none lost and none duplicated — and main does not raise. -/
theorem c1_profile_keys :
    mainKeys = ["name", "location", "role", "motto", "education",
      "certification", "skills", "interests", "contact"] ∧
    mainKeys = personalKeys ++ ["skills", "interests", "contact"] ∧
    mainKeys.Nodup ∧
    (resultOf main).isSome = true :=
  ⟨by decide, by decide, by decide, rfl⟩

/-- C2: in the profile returned by main, the value under skills is exactly
the dict returned by get_skills, and likewise for interests (get_interests)
and contact (get_contact). -/
theorem c2_nested_values :
    (resultOf main).bind (fun d => dictGet d "skills")
        = (resultOf get_skills).map Value.d ∧
    (resultOf main).bind (fun d => dictGet d "interests")
        = (resultOf get_interests).map Value.d ∧
    (resultOf main).bind (fun d => dictGet d "contact")
        = (resultOf get_contact).map Value.d :=
  ⟨rfl, rfl, rfl⟩

/-- C3: get_personal_info returns exactly the six-entry mapping of the
spec, in this key order, with these values, no more and no fewer. -/
theorem c3_personal_info_literal :
    resultOf get_personal_info = some [
      ("name", Value.s "Javier Argüeso"),
      ("location", Value.s "Badajoz, España"),
      ("role", Value.s "DevOps Engineer"),
      ("motto", Value.s "Destroy Every Version On Production Servers"),
      ("education",
        Value.s "Ingeniería Informática - Universidad de Extremadura"),
      ("certification", Value.s "Google Cloud Associate Engineer")] :=
  rfl

/-- C4: running the module directly raises nothing and writes exactly these
five lines, in this order: name and role, location, motto, education,
certification, each of the form icon, space, field value; every line is
non-empty. -/
theorem c4_direct_run_output :
    run_module "__main__" =
      (Except.ok (), ["👋 Javier Argüeso - DevOps Engineer",
                      "📍 Badajoz, España",
                      "💭 Destroy Every Version On Production Servers",
                      "🎓 Ingeniería Informática - Universidad de Extremadura",
                      "☁️ Google Cloud Associate Engineer"]) ∧
    (run_module "__main__").2.length = 5 ∧
    ((run_module "__main__").2.all (fun line => !(line == ""))) = true :=
  ⟨rfl, rfl, by decide⟩

/-- C5: each of the four providers is deterministic — two successive calls
in the same run return equal mappings, and the calls write no output. -/
theorem c5_providers_deterministic :
    twiceCall get_personal_info =
      (Except.ok (personal_info_data, personal_info_data), []) ∧
    twiceCall get_skills = (Except.ok (skills_data, skills_data), []) ∧
    twiceCall get_interests =
      (Except.ok (interests_data, interests_data), []) ∧
    twiceCall get_contact = (Except.ok (contact_data, contact_data), []) :=
  ⟨rfl, rfl, rfl, rfl⟩

/-- C6 counterexample: the claim says the profile holds exactly two keys
beyond the personal-info fields, but the profile built by main holds three
such keys, so the count is not two. -/
theorem c6_counterexample :
    ¬ ((mainKeys.filter
        (fun k => !(personalKeys.contains k))).length = 2) := by
  decide

/-- C6 (amended): beyond the six personal-info fields, the profile returned
by main contains exactly three additional keys — skills, interests and
contact — for nine keys in total. -/
theorem c6_profile_extra_keys :
    mainKeys.filter (fun k => !(personalKeys.contains k))
        = ["skills", "interests", "contact"] ∧
    mainKeys.length = personalKeys.length + 3 :=
  ⟨by decide, by decide⟩

/-- C7: loading the module under any name other than __main__ writes zero
lines to standard output and raises nothing; the presentation block does
not run. -/
theorem c7_import_silent (name : String) (h : name ≠ "__main__") :
    run_module name = (Except.ok (), []) := by
  simp [run_module, pyPure, h]

/-- C7 witness: importing under the name developer satisfies the hypothesis
and produces no output. -/
theorem c7_import_silent_witness :
    "developer" ≠ "__main__" ∧
      run_module "developer" = (Except.ok (), []) :=
  ⟨by decide, c7_import_silent "developer" (by decide)⟩

/-- C8: the four providers and main are total and side-effect free — each
returns a dict without raising and writes nothing to standard output, so
main has no error branch. -/
theorem c8_total_no_output :
    (∃ d, main = (Except.ok d, [])) ∧
    (∃ d, get_personal_info = (Except.ok d, [])) ∧
    (∃ d, get_skills = (Except.ok d, [])) ∧
    (∃ d, get_interests = (Except.ok d, [])) ∧
    (∃ d, get_contact = (Except.ok d, [])) :=
  ⟨⟨profileD, rfl⟩, ⟨personal_info_data, rfl⟩, ⟨skills_data, rfl⟩,
    ⟨interests_data, rfl⟩, ⟨contact_data, rfl⟩⟩

/-- C9: the personal-info keys are disjoint from skills, interests and
contact, so the merge in main overwrites nothing: the profile is exactly
the personal-info pairs followed by the three nested provider dicts,
each unchanged. -/
theorem c9_merge_overwrites_nothing :
    (personalKeys.all
      (fun k => !(["skills", "interests", "contact"].contains k))) = true ∧
    profileD = personal_info_data ++
      [("skills", Value.d skills_data),
       ("interests", Value.d interests_data),
       ("contact", Value.d contact_data)] :=
  ⟨by decide, rfl⟩

/-- C10: the exact literal contents of the three non-personal providers,
each in its source key order. -/
theorem c10_other_provider_literals :
    resultOf get_skills = some [
      ("cloud", Value.l ["Google Cloud", "AWS", "Azure"]),
      ("automation", Value.l ["Kubernetes", "Docker", "Jenkins"]),
      ("programming", Value.l ["Python", "Bash"]),
      ("ci_cd", Value.l ["GitLab CI/CD", "Azure DevOps"])] ∧
    resultOf get_interests = some [
      ("tech", Value.l ["Cloud Architecture", "Automation", "DevSecOps"]),
      ("personal", Value.l ["Metal Music", "Craft Beer", "Artisan Cheese"])] ∧
    resultOf get_contact = some [
      ("github", Value.s "srcheesedev"),
      ("linkedin", Value.s "javier-argueso-soto"),
      ("instagram", Value.s "srcheese.dev")] :=
  ⟨rfl, rfl, rfl⟩
